import Mathlib

/-!
Verification development for the streamlit-pid repository
(an image/PDF field-extraction pipeline plus a scratch database facility).

The Python sources are shallowly embedded as executable Lean definitions:
  * `JValue` and `loads` model Python values produced by `json.loads`
    (numbers are modelled as integers; fractional and exponent literals are
    rejected by the model, which no statement below depends on);
  * `stripFences` models the inline fence-stripping of the image flow's
    "Combine All JSONs" handler (src/app.py lines 136-145);
  * `normalizeRaw` / `normalizeRawPdf` model the per-entry bodies of the
    "Combine All JSONs" handlers of src/app.py and
    src/views/pdf_field_extractor.py;
  * `validateAndUpdate` models the "Validate & Update" handlers;
  * `extract_with_llm` and `invokeAll` model the gateway call and the
    "Invoke All Prompts" handlers;
  * `generate_token`, `RotatingTokenConnection.connect` and `build_pool`
    model src/views/oltp_database_connect.py.
-/

/-- JSON whitespace characters skipped by the parser (space, tab, newline,
carriage return), as accepted by Python's `json.loads`. -/
def jsonWs (c : Char) : Bool :=
  c == ' ' || c == '\t' || c == '\n' || c == '\r'

/-- Characters removed from both ends by Python's `str.strip()`:
space, tab, newline, carriage return, vertical tab, form feed. -/
def pyWs (c : Char) : Bool :=
  c == ' ' || c == '\t' || c == '\n' || c == '\r' || c == '\x0b' || c == '\x0c'

/-- Model of Python's `str.strip()` on character lists: drop the leading and
trailing runs of whitespace characters. -/
def pyStripL (l : List Char) : List Char :=
  ((l.dropWhile pyWs).reverse.dropWhile pyWs).reverse

/-- Model of Python's `s[:-n]`: remove the last `n` characters. -/
def dropRightL (n : Nat) (l : List Char) : List Char :=
  (l.reverse.drop n).reverse

/-- Python values that can result from `json.loads` (with `None` also standing
for the gateway-failure marker stored by the app). -/
inductive JValue where
  | null : JValue
  | bool (b : Bool) : JValue
  | num (n : Int) : JValue
  | str (s : String) : JValue
  | arr (xs : List JValue) : JValue
  | obj (fields : List (String × JValue)) : JValue

/-- Skip JSON whitespace. -/
def skipWs (cs : List Char) : List Char :=
  cs.dropWhile jsonWs

/-- Scan a JSON string body (the opening quote already consumed), handling the
standard single-character escapes; returns the decoded characters and the rest
of the input. `\uXXXX` escapes are not modelled. -/
def scanStr (acc : List Char) : List Char → Option (List Char × List Char)
  | [] => none
  | c :: cs =>
    if c = '"' then some (acc.reverse, cs)
    else if c = '\\' then
      match cs with
      | [] => none
      | e :: cs2 =>
        if e = '"' then scanStr ('"' :: acc) cs2
        else if e = '\\' then scanStr ('\\' :: acc) cs2
        else if e = '/' then scanStr ('/' :: acc) cs2
        else if e = 'n' then scanStr ('\n' :: acc) cs2
        else if e = 't' then scanStr ('\t' :: acc) cs2
        else if e = 'r' then scanStr ('\r' :: acc) cs2
        else if e = 'b' then scanStr ('\x08' :: acc) cs2
        else if e = 'f' then scanStr ('\x0c' :: acc) cs2
        else none
    else scanStr (c :: acc) cs

/-- Decimal digits to a natural number. -/
def digitsToNat (ds : List Char) : Nat :=
  ds.foldl (fun a c => a * 10 + (c.toNat - 48)) 0

/-- A number literal may not be followed by a fractional or exponent part in
this integer-only model. -/
def floatFollows : List Char → Bool
  | c :: _ => c = '.' || c = 'e' || c = 'E'
  | [] => false

/-- Scan a JSON integer literal (optional minus sign, then digits). -/
def scanNum (cs : List Char) : Option (JValue × List Char) :=
  match cs with
  | '-' :: rest =>
    let p := rest.span Char.isDigit
    if p.1.isEmpty then none
    else if floatFollows p.2 then none
    else some (JValue.num (-(digitsToNat p.1 : Int)), p.2)
  | _ =>
    let p := cs.span Char.isDigit
    if p.1.isEmpty then none
    else if floatFollows p.2 then none
    else some (JValue.num (digitsToNat p.1), p.2)

/-- Parser mode: a single value, the items of an array, or the members of an
object. -/
inductive PM where
  | val : PM
  | arrItems : PM
  | objItems : PM

/-- Parser intermediate output. -/
inductive POut where
  | val (v : JValue) : POut
  | arr (vs : List JValue) : POut
  | obj (fs : List (String × JValue)) : POut

/-- Fuel-indexed recursive-descent JSON parser (structural recursion on the
fuel, so that concrete runs reduce inside `decide` and `rfl`). -/
def pstep : Nat → PM → List Char → Option (POut × List Char)
  | 0, _, _ => none
  | Nat.succ fuel, PM.val, cs =>
    match skipWs cs with
    | [] => none
    | c :: rest =>
      if c = '{' then
        match skipWs rest with
        | '}' :: rest2 => some (POut.val (JValue.obj []), rest2)
        | _ =>
          match pstep fuel PM.objItems rest with
          | some (POut.obj fs, rest2) => some (POut.val (JValue.obj fs), rest2)
          | _ => none
      else if c = '[' then
        match skipWs rest with
        | ']' :: rest2 => some (POut.val (JValue.arr []), rest2)
        | _ =>
          match pstep fuel PM.arrItems rest with
          | some (POut.arr vs, rest2) => some (POut.val (JValue.arr vs), rest2)
          | _ => none
      else if c = '"' then
        match scanStr [] rest with
        | some (body, rest2) => some (POut.val (JValue.str (String.mk body)), rest2)
        | none => none
      else if c = 't' then
        match rest with
        | 'r' :: 'u' :: 'e' :: rest2 => some (POut.val (JValue.bool true), rest2)
        | _ => none
      else if c = 'f' then
        match rest with
        | 'a' :: 'l' :: 's' :: 'e' :: rest2 => some (POut.val (JValue.bool false), rest2)
        | _ => none
      else if c = 'n' then
        match rest with
        | 'u' :: 'l' :: 'l' :: rest2 => some (POut.val JValue.null, rest2)
        | _ => none
      else if c = '-' || c.isDigit then
        match scanNum (c :: rest) with
        | some (v, rest2) => some (POut.val v, rest2)
        | none => none
      else none
  | Nat.succ fuel, PM.arrItems, cs =>
    match pstep fuel PM.val cs with
    | some (POut.val v, rest) =>
      match skipWs rest with
      | ',' :: rest2 =>
        match pstep fuel PM.arrItems rest2 with
        | some (POut.arr vs, rest3) => some (POut.arr (v :: vs), rest3)
        | _ => none
      | ']' :: rest2 => some (POut.arr [v], rest2)
      | _ => none
    | _ => none
  | Nat.succ fuel, PM.objItems, cs =>
    match skipWs cs with
    | '"' :: rest =>
      match scanStr [] rest with
      | some (key, rest2) =>
        match skipWs rest2 with
        | ':' :: rest3 =>
          match pstep fuel PM.val rest3 with
          | some (POut.val v, rest4) =>
            match skipWs rest4 with
            | ',' :: rest5 =>
              match pstep fuel PM.objItems rest5 with
              | some (POut.obj fs, rest6) =>
                some (POut.obj ((String.mk key, v) :: fs), rest6)
              | _ => none
            | '}' :: rest5 => some (POut.obj [(String.mk key, v)], rest5)
            | _ => none
          | _ => none
        | _ => none
      | none => none
    | _ => none

/-- Model of `json.loads` on character lists: parse one value and require that
only whitespace remains. -/
def loadsL (cs : List Char) : Option JValue :=
  match pstep (2 * cs.length + 4) PM.val cs with
  | some (POut.val v, rest) => if (skipWs rest).isEmpty then some v else none
  | _ => none

/-- Model of Python's `json.loads` on strings; `none` models a raised
`JSONDecodeError`. -/
def loads (s : String) : Option JValue :=
  loadsL s.data

/-- The leading fence marker checked first by the image flow. -/
def fenceJsonMark : List Char := ['`', '`', '`', 'j', 's', 'o', 'n']

/-- The bare fence marker. -/
def fenceMark : List Char := ['`', '`', '`']

/-- src/app.py lines 139-140: `if cleaned.startswith("```json"): cleaned = cleaned[7:]`. -/
def stripLeadJson (l : List Char) : List Char :=
  if fenceJsonMark.isPrefixOf l then l.drop 7 else l

/-- src/app.py lines 141-142: `if cleaned.startswith("```"): cleaned = cleaned[3:]`. -/
def stripLeadBare (l : List Char) : List Char :=
  if fenceMark.isPrefixOf l then l.drop 3 else l

/-- src/app.py lines 143-144: `if cleaned.endswith("```"): cleaned = cleaned[:-3]`. -/
def stripTrailBare (l : List Char) : List Char :=
  if fenceMark.isSuffixOf l then dropRightL 3 l else l

/-- Markdown fence stripping from the image flow's "Combine All JSONs" handler
(src/app.py lines 136-145): strip whitespace, drop a leading "```json" marker
(7 characters), drop a leading "```" marker (3 characters), drop a trailing
"```" marker (3 characters), strip whitespace again. -/
def stripFencesL (l : List Char) : List Char :=
  pyStripL (stripTrailBare (stripLeadBare (stripLeadJson (pyStripL l))))

/-- String-level wrapper for `stripFencesL`. -/
def stripFences (s : String) : String :=
  String.mk (stripFencesL s.data)

/-- Outcome of the remote chat-completion call performed inside the try block
of `extract_with_llm`: either the assistant message's text content, or a
raised transport/endpoint exception carrying its message. -/
inductive GatewayOutcome where
  | success (content : String) : GatewayOutcome
  | failure (err : String) : GatewayOutcome

/-- Model of `extract_with_llm` (src/app.py lines 32-61 and
src/views/pdf_field_extractor.py lines 30-60): the whole body runs inside
try/except, so a successful call returns the message content and any raised
exception is caught, shown via st.error, and turned into the None marker. -/
def extract_with_llm (outcome : GatewayOutcome) : Option String :=
  match outcome with
  | GatewayOutcome.success content => some content
  | GatewayOutcome.failure _ => none

/-- Model of the "Invoke All Prompts" handler (src/app.py lines 105-115,
src/views/pdf_field_extractor.py lines 98-108): the previous result batch is
discarded (`st.session_state.prompt_results = {}`), then one gateway call per
configured prompt, in configuration order, stores its outcome under the
prompt's name. The prompts mapping is a Python dict, so prompt names are
distinct and each loop iteration appends a new entry. The remote endpoint is
abstracted as `oracle`, taking the encoded document and the prompt text. -/
def invokeAll (_prevResults : List (String × Option String))
    (oracle : String → String → GatewayOutcome) (docB64 : String)
    (prompts : List (String × String)) : List (String × Option String) :=
  prompts.foldl (fun acc e => acc ++ [(e.1, extract_with_llm (oracle docB64 e.2))]) []

/-- Per-entry body of the image flow's "Combine All JSONs" handler
(src/app.py lines 133-154): a string result is fence-stripped and parsed, the
original (uncleaned) string being kept on parse failure; a non-string result
(the None failure marker) is passed through as-is. The Bool records whether
the JSON parse succeeded — the spec's wasStructured flag, observable in the
code as the absence of the per-entry parse warning for string inputs; no parse
is ever attempted for the None marker. -/
def normalizeRaw (result : Option String) : JValue × Bool :=
  match result with
  | none => (JValue.null, false)
  | some s =>
    match loads (stripFences s) with
    | some v => (v, true)
    | none => (JValue.str s, false)

/-- Per-entry body of the PDF flow's "Combine All JSONs" handler
(src/views/pdf_field_extractor.py lines 120-134): identical to the image flow
except that the raw string is passed to `json.loads` directly, with no
fence stripping. -/
def normalizeRawPdf (result : Option String) : JValue × Bool :=
  match result with
  | none => (JValue.null, false)
  | some s =>
    match loads s with
    | some v => (v, true)
    | none => (JValue.str s, false)

/-- The image flow's "Combine All JSONs" handler: one entry per prompt result,
in the batch's order; the loop body never raises (parse failures are caught
and degrade to the raw string). -/
def combine (batch : List (String × Option String)) : List (String × JValue) :=
  batch.map (fun e => (e.1, (normalizeRaw e.2).1))

/-- The PDF flow's "Combine All JSONs" handler. -/
def combinePdf (batch : List (String × Option String)) : List (String × JValue) :=
  batch.map (fun e => (e.1, (normalizeRawPdf e.2).1))

/-- The image-flow combine body (src/app.py lines 133-154) applied to an
already-stored Python value: the `isinstance(result, str)` branch
fence-strips and parses strings (keeping the string on failure), every other
value is passed through unchanged. Re-running "Combine All JSONs" over
already-normalized entries applies exactly this function. -/
def combineValue (result : JValue) : JValue :=
  match result with
  | JValue.str s =>
    match loads (stripFences s) with
    | some v => v
    | none => JValue.str s
  | v => v

/-- A stored value is stable under re-normalization when it is not a string,
or is a string whose fence-stripped text does not parse as JSON. -/
def renormStable (v : JValue) : Bool :=
  match v with
  | JValue.str s => (loads (stripFences s)).isNone
  | _ => true

/-- Model of the "Validate & Update" handler (src/app.py lines 171-176,
src/views/pdf_field_extractor.py lines 149-154): parse the edited text; on
success `final_json` is replaced in full by the parsed value, on a
JSONDecodeError the assignment never runs, `final_json` is left untouched and
an error is shown. The Bool is the success indicator. -/
def validateAndUpdate (final_json : JValue) (edited : String) : JValue × Bool :=
  match loads edited with
  | some v => (v, true)
  | none => (final_json, false)

/-- Model of `generate_token` (src/views/oltp_database_connect.py lines
26-30): the workspace credential service is abstracted as `mint`; each call
passes a fresh request id together with the named instance and returns the
minted short-lived token. -/
def generate_token (mint : String → String → String) (request_id : String)
    (instance_name : String) : String :=
  mint request_id instance_name

/-- The keyword arguments a pool hands to its connection class: the private
`_instance_name` entry plus an optional pre-set sslmode. -/
structure ConnectKwargs where
  instanceName : String
  sslmode : Option String

/-- The parameters that reach psycopg's base `Connection.connect` (the actual
handshake) after `RotatingTokenConnection.connect` has rewritten kwargs. -/
structure PgConnectArgs where
  conninfo : String
  password : String
  sslmode : String

/-- Model of `RotatingTokenConnection.connect` (src/views/
oltp_database_connect.py lines 33-41): pop `_instance_name` from kwargs,
inject a freshly generated credential as the password, default sslmode to
"require" via `setdefault`, and delegate to the base-class handshake. -/
def RotatingTokenConnection.connect (mint : String → String → String)
    (request_id : String) (conninfo : String) (kw : ConnectKwargs) :
    PgConnectArgs :=
  { conninfo := conninfo
  , password := generate_token mint request_id kw.instanceName
  , sslmode := kw.sslmode.getD "require" }

/-- conninfo string built by `build_pool`. -/
def mkConninfo (host database user : String) : String :=
  "host=" ++ host ++ " dbname=" ++ database ++ " user=" ++ user

/-- Static configuration of the psycopg connection pool. -/
structure PoolConfig where
  conninfo : String
  kwargs : ConnectKwargs
  minSize : Nat
  maxSize : Nat

/-- Model of `build_pool` (src/views/oltp_database_connect.py lines 44-54):
the pool is configured with `RotatingTokenConnection` as its connection class
and kwargs naming the database instance; no sslmode is supplied, so every
connection falls back to the setdefault value. -/
def build_pool (instance_name host user database : String) : PoolConfig :=
  { conninfo := mkConninfo host database user
  , kwargs := { instanceName := instance_name, sslmode := none }
  , minSize := 1
  , maxSize := 10 }

/-- A new physical connection opened by the pool: the handshake parameters
produced by running the configured connection class on the pool's conninfo
and kwargs, with a per-call fresh request id. -/
def poolNewConnection (mint : String → String → String) (request_id : String)
    (cfg : PoolConfig) : PgConnectArgs :=
  RotatingTokenConnection.connect mint request_id cfg.conninfo cfg.kwargs

example : loads "\x7b\"holes\": 4\x7d" = some (JValue.obj [("holes", JValue.num 4)]) := rfl

example : stripFences "```json\n\x7b\"holes\": 4\x7d\n```" = "\x7b\"holes\": 4\x7d" := by decide

example : loads "\x7bnot json" = none := rfl

example : loads "[1, 2]" = some (JValue.arr [JValue.num 1, JValue.num 2]) := rfl

example : loads "5" = some (JValue.num 5) := rfl

example : loads "\"5\"" = some (JValue.str "5") := rfl

example : loads "four holes, see drawing" = none := rfl

/-- Folding with snoc over a list equals the initial segment followed by the
mapped list (shared helper for the invoke-all loop). -/
theorem foldl_snoc_eq_map {α β : Type} (f : α → β) (l : List α) (init : List β) :
    l.foldl (fun acc x => acc ++ [f x]) init = init ++ l.map f := by
  induction l generalizing init with
  | nil => simp
  | cons x xs ih => simp [List.foldl_cons, ih]

/-- The invoke-all loop produces exactly the per-prompt map of gateway
outcomes (shared helper). -/
theorem invokeAll_eq_map (prevResults : List (String × Option String))
    (oracle : String → String → GatewayOutcome) (docB64 : String)
    (prompts : List (String × String)) :
    invokeAll prevResults oracle docB64 prompts =
      prompts.map (fun e => (e.1, extract_with_llm (oracle docB64 e.2))) := by
  unfold invokeAll
  rw [foldl_snoc_eq_map]
  simp

/-- C2: when the edited text is not well-formed JSON, Validate & Update
reports a failure and the merged document afterwards is exactly the previous
one, unchanged; no partial update is applied. -/
theorem c2_validate_failure_preserves_document (final_json : JValue)
    (edited : String) (h : loads edited = none) :
    validateAndUpdate final_json edited = (final_json, false) := by
  unfold validateAndUpdate
  rw [h]

/-- C2 witness: the malformed edit "\x7bnot json" fails and leaves the concrete
document in place. -/
theorem c2_validate_failure_preserves_document_witness :
    loads "\x7bnot json" = none ∧
      validateAndUpdate (JValue.obj [("a", JValue.num 1)]) "\x7bnot json" =
        (JValue.obj [("a", JValue.num 1)], false) :=
  ⟨rfl, c2_validate_failure_preserves_document (JValue.obj [("a", JValue.num 1)])
    "\x7bnot json" rfl⟩

/-- C3: invoke-all completes for every document and prompt set and yields a
batch whose keys are exactly the configured prompt names, in order, one entry
per prompt, whatever the individual gateway outcomes are. -/
theorem c3_invoke_all_fully_populates_batch
    (prevResults : List (String × Option String))
    (oracle : String → String → GatewayOutcome) (docB64 : String)
    (prompts : List (String × String)) :
    (invokeAll prevResults oracle docB64 prompts).map Prod.fst =
        prompts.map Prod.fst ∧
      (invokeAll prevResults oracle docB64 prompts).length = prompts.length := by
  rw [invokeAll_eq_map]
  constructor
  · rw [List.map_map]
    rfl
  · rw [List.length_map]

/-- C4: the image-flow merge is total and returns one entry per input result,
keys in the input's order, and every unparsable textual entry degrades to its
raw-string fallback. -/
theorem c4_combine_total_one_entry_per_result
    (batch : List (String × Option String)) :
    (combine batch).map Prod.fst = batch.map Prod.fst ∧
      (combine batch).length = batch.length ∧
      ∀ n s, (n, some s) ∈ batch → loads (stripFences s) = none →
        (n, JValue.str s) ∈ combine batch := by
  refine ⟨?_, ?_, ?_⟩
  · unfold combine
    rw [List.map_map]
    rfl
  · unfold combine
    rw [List.length_map]
  · intro n s hmem hfail
    unfold combine
    refine List.mem_map.mpr ⟨(n, some s), hmem, ?_⟩
    simp [normalizeRaw, hfail]

/-- C4 witness: a batch mixing a structured entry, a gateway-failed entry and
an unparsable textual entry merges to three entries with the textual entry
kept as its raw string. -/
theorem c4_combine_total_one_entry_per_result_witness :
    (combine [("total_number_of_holes", some "\x7b\"n\": 1\x7d"),
        ("dowel_holds", none), ("drill_dimensions", some "four holes, see drawing")]).map
        Prod.fst =
      ["total_number_of_holes", "dowel_holds", "drill_dimensions"] ∧
      ("drill_dimensions", JValue.str "four holes, see drawing") ∈
        combine [("total_number_of_holes", some "\x7b\"n\": 1\x7d"),
          ("dowel_holds", none), ("drill_dimensions", some "four holes, see drawing")] := by
  refine ⟨?_, ?_⟩
  · exact ((c4_combine_total_one_entry_per_result _).1).trans rfl
  · exact (c4_combine_total_one_entry_per_result _).2.2 "drill_dimensions"
      "four holes, see drawing"
      (List.Mem.tail _ (List.Mem.tail _ (List.Mem.head _))) rfl

/-- C5: the gateway wrapper never lets an exception cross its boundary — any
raised transport or endpoint error is converted to the None failure marker,
and a completed call returns its content. -/
theorem c5_extract_with_llm_never_raises (err content : String) :
    extract_with_llm (GatewayOutcome.failure err) = none ∧
      extract_with_llm (GatewayOutcome.success content) = some content :=
  ⟨rfl, rfl⟩

/-- C6: a gateway-failed entry (None raw text) is carried through the merge as
the explicit null failure marker under its prompt name — never dropped — and
that marker is distinct from the empty structured object. -/
theorem c6_null_result_survives_as_marker (batch : List (String × Option String))
    (n : String) (h : (n, (none : Option String)) ∈ batch) :
    (n, JValue.null) ∈ combine batch ∧ JValue.null ≠ JValue.obj [] := by
  constructor
  · exact List.mem_map.mpr ⟨(n, none), h, rfl⟩
  · intro hcontra
    exact JValue.noConfusion hcontra

/-- C6 witness: in a three-entry batch whose "dowel_holds" call failed, the
merge keeps a null marker under "dowel_holds". -/
theorem c6_null_result_survives_as_marker_witness :
    ("dowel_holds", JValue.null) ∈
        combine [("total_number_of_holes", some "\x7b\"a\": 1\x7d"),
          ("dowel_holds", none), ("drill_dimensions", some "\x7b\x7d")] ∧
      JValue.null ≠ JValue.obj [] :=
  c6_null_result_survives_as_marker
    [("total_number_of_holes", some "\x7b\"a\": 1\x7d"),
      ("dowel_holds", none), ("drill_dimensions", some "\x7b\x7d")]
    "dowel_holds" (List.Mem.tail _ (List.Mem.head _))

/-- C8: invoke-all replaces the previous batch wholesale — the produced batch
does not depend on any earlier batch, and every key it holds is a currently
configured prompt name. -/
theorem c8_invoke_all_replaces_batch_in_full
    (oracle : String → String → GatewayOutcome) (docB64 : String)
    (prompts : List (String × String))
    (prev1 prev2 : List (String × Option String)) :
    invokeAll prev1 oracle docB64 prompts = invokeAll prev2 oracle docB64 prompts ∧
      (invokeAll prev1 oracle docB64 prompts).map Prod.fst = prompts.map Prod.fst := by
  constructor
  · rfl
  · exact (c3_invoke_all_fully_populates_batch prev1 oracle docB64 prompts).1

/-- C9: every physical connection the scratch-store pool opens authenticates
with a freshly minted credential — the token generated from the per-call
request id bound to the configured instance name, injected as the password
before the handshake — and, the pool supplying no sslmode, TLS defaults to
"require"; on arbitrary kwargs the password is always the fresh token and
sslmode is the caller's value or the "require" default. -/
theorem c9_pool_connection_fresh_token_and_tls
    (mint : String → String → String)
    (request_id instance_name host user database conninfo : String)
    (kw : ConnectKwargs) :
    (poolNewConnection mint request_id
          (build_pool instance_name host user database)).password =
        generate_token mint request_id instance_name ∧
      (poolNewConnection mint request_id
          (build_pool instance_name host user database)).sslmode = "require" ∧
      (RotatingTokenConnection.connect mint request_id conninfo kw).password =
        generate_token mint request_id kw.instanceName ∧
      (RotatingTokenConnection.connect mint request_id conninfo kw).sslmode =
        kw.sslmode.getD "require" :=
  ⟨rfl, rfl, rfl, rfl⟩

/-- C10: the Review & Commit gate accepts any well-formed JSON text — objects
or not — and replaces the merged document in full with the parsed value. -/
theorem c10_validate_accepts_any_wellformed_json (final_json : JValue)
    (edited : String) (v : JValue) (h : loads edited = some v) :
    validateAndUpdate final_json edited = (v, true) := by
  unfold validateAndUpdate
  rw [h]

/-- C10 witness: a bare scalar "5" and a bare array "[1, 2]" are both
accepted and fully replace the previous object document. -/
theorem c10_validate_accepts_any_wellformed_json_witness :
    validateAndUpdate (JValue.obj [("a", JValue.num 1)]) "5" =
        (JValue.num 5, true) ∧
      validateAndUpdate (JValue.obj [("a", JValue.num 1)]) "[1, 2]" =
        (JValue.arr [JValue.num 1, JValue.num 2], true) :=
  ⟨c10_validate_accepts_any_wellformed_json _ "5" (JValue.num 5) rfl,
    c10_validate_accepts_any_wellformed_json _ "[1, 2]"
      (JValue.arr [JValue.num 1, JValue.num 2]) rfl⟩

/-- Values that are not strings pass through re-normalization unchanged
(shared helper for the combine body). -/
theorem combineValue_of_stable (v : JValue) (h : renormStable v = true) :
    combineValue v = v := by
  cases v with
  | str s =>
    unfold renormStable at h
    rw [Option.isNone_iff_eq_none] at h
    simp [combineValue, h]
  | null => rfl
  | bool b => rfl
  | num n => rfl
  | arr xs => rfl
  | obj fs => rfl

/-- C7 counterexample: the raw text consisting of a quoted "5" normalizes to
the string value "5" (a successfully parsed structured value), but
re-normalizing that value parses again and yields the number 5 — so applying
the normalizer twice does not equal applying it once. -/
theorem c7_renormalize_not_idempotent_counterexample :
    combineValue (combineValue (JValue.str "\"5\"")) ≠
      combineValue (JValue.str "\"5\"") := by
  intro h
  have h2 : JValue.num 5 = JValue.str "5" := h
  exact JValue.noConfusion h2

/-- C7 amended: re-normalizing the value produced for a raw text T changes
nothing provided that value is stable — it is not a string, or it is a string
whose fence-stripped text does not parse as JSON (in particular every textual
fallback); idempotence fails only for parsed values that are themselves
JSON-parsable strings. -/
theorem c7_renormalize_idempotent_on_stable_values (T : String)
    (h : renormStable (normalizeRaw (some T)).1 = true) :
    combineValue ((normalizeRaw (some T)).1) = (normalizeRaw (some T)).1 :=
  combineValue_of_stable _ h

/-- C7 witness: the textual fallback "four holes, see drawing" is stable and
re-normalizes to itself. -/
theorem c7_renormalize_idempotent_on_stable_values_witness :
    renormStable (normalizeRaw (some "four holes, see drawing")).1 = true ∧
      combineValue ((normalizeRaw (some "four holes, see drawing")).1) =
        (normalizeRaw (some "four holes, see drawing")).1 :=
  ⟨rfl, c7_renormalize_idempotent_on_stable_values "four holes, see drawing" rfl⟩

/-- The canonical json-tagged fenced wrapping of a raw model answer. -/
def jsonFenceWrapL (s : List Char) : List Char :=
  fenceJsonMark ++ '\n' :: (s ++ '\n' :: fenceMark)

/-- The canonical untagged fenced wrapping of a raw model answer. -/
def bareFenceWrapL (s : List Char) : List Char :=
  fenceMark ++ '\n' :: (s ++ '\n' :: fenceMark)

/-- Stripping ignores a leading whitespace character (helper). -/
theorem pyStripL_cons_ws (c : Char) (hc : pyWs c = true) (l : List Char) :
    pyStripL (c :: l) = pyStripL l := by
  unfold pyStripL
  rw [List.dropWhile_cons_of_pos hc]

/-- Stripping ignores a trailing whitespace character (helper). -/
theorem pyStripL_append_ws (c : Char) (hc : pyWs c = true) (l : List Char) :
    pyStripL (l ++ [c]) = pyStripL l := by
  unfold pyStripL
  rw [List.dropWhile_append]
  by_cases he : (l.dropWhile pyWs).isEmpty
  · rw [if_pos he]
    rw [List.isEmpty_iff] at he
    rw [he]
    simp [hc]
  · rw [if_neg he]
    rw [List.reverse_append]
    simp [hc]

/-- A list with non-whitespace edge characters strips to itself (helper). -/
theorem pyStripL_of_edges (a b : Char) (l : List Char)
    (ha : pyWs a = false) (hb : pyWs b = false) :
    pyStripL (a :: (l ++ [b])) = a :: (l ++ [b]) := by
  simp [pyStripL, List.dropWhile_cons, ha, hb, List.reverse_cons, List.reverse_append]

/-- Dropping three characters from a cons-chain (helper). -/
theorem drop_three_cons (a b c : Char) (t : List Char) :
    List.drop 3 (a :: b :: c :: t) = t := rfl

/-- The trailing fence marker is removed and the remaining newlines are
stripped (helper shared by both wrap shapes). -/
theorem stripTail_fenceWrap (s : List Char) :
    pyStripL (stripTrailBare ('\n' :: (s ++ '\n' :: fenceMark))) = pyStripL s := by
  have hsuf : fenceMark.isSuffixOf ('\n' :: (s ++ '\n' :: fenceMark)) = true := by
    simp [List.isSuffixOf, fenceMark, List.isPrefixOf, List.reverse_cons,
      List.reverse_append]
  have htrail : stripTrailBare ('\n' :: (s ++ '\n' :: fenceMark)) =
      '\n' :: (s ++ ['\n']) := by
    simp only [stripTrailBare, hsuf, if_true]
    simp [dropRightL, fenceMark, List.reverse_cons, List.reverse_append,
      drop_three_cons]
  rw [htrail, pyStripL_cons_ws '\n' rfl, pyStripL_append_ws '\n' rfl]

/-- For every raw text, the image flow's cleanup strips the json-tagged fence
wrapping down to the whitespace-stripped body. -/
theorem stripFencesL_jsonFenceWrap (s : List Char) :
    stripFencesL (jsonFenceWrapL s) = pyStripL s := by
  have hid : pyStripL (jsonFenceWrapL s) = jsonFenceWrapL s := by
    have hshape : jsonFenceWrapL s =
        '`' :: ((['`', '`', 'j', 's', 'o', 'n', '\n'] ++ (s ++ ['\n', '`', '`'])) ++ ['`']) := by
      simp [jsonFenceWrapL, fenceJsonMark, fenceMark]
    rw [hshape]
    exact pyStripL_of_edges '`' '`' _ rfl rfl
  have hlead : stripLeadBare (stripLeadJson (jsonFenceWrapL s)) =
      '\n' :: (s ++ '\n' :: fenceMark) := rfl
  unfold stripFencesL
  rw [hid, hlead]
  exact stripTail_fenceWrap s

/-- For every raw text, the image flow's cleanup strips the untagged fence
wrapping down to the whitespace-stripped body. -/
theorem stripFencesL_bareFenceWrap (s : List Char) :
    stripFencesL (bareFenceWrapL s) = pyStripL s := by
  have hid : pyStripL (bareFenceWrapL s) = bareFenceWrapL s := by
    have hshape : bareFenceWrapL s =
        '`' :: ((['`', '`', '\n'] ++ (s ++ ['\n', '`', '`'])) ++ ['`']) := by
      simp [bareFenceWrapL, fenceMark]
    rw [hshape]
    exact pyStripL_of_edges '`' '`' _ rfl rfl
  have hlead : stripLeadBare (stripLeadJson (bareFenceWrapL s)) =
      '\n' :: (s ++ '\n' :: fenceMark) := rfl
  unfold stripFencesL
  rw [hid, hlead]
  exact stripTail_fenceWrap s

/-- C1 counterexample: in the PDF flow the fenced response
"```json\n\x7b\"holes\": 4\x7d\n```" is NOT normalized to the structured value
{"holes": 4} with wasStructured = true — the PDF combine handler performs no
fence stripping, so the parse fails and the entry stays textual. -/
theorem c1_fence_strip_pdf_flow_counterexample :
    normalizeRawPdf (some "```json\n\x7b\"holes\": 4\x7d\n```") ≠
      (JValue.obj [("holes", JValue.num 4)], true) := by
  intro h
  have h2 : (false : Bool) = true := congrArg Prod.snd h
  exact Bool.noConfusion h2

/-- C1 amended: the fence-stripping normalization holds in the image flow —
for every raw text, a json-tagged or bare fence wrapping is stripped with
whitespace trimmed before and after, and the scenario input normalizes to
{"holes": 4} with wasStructured = true; the PDF flow, however, parses the raw
text without any fence stripping, so the same input remains a textual
fallback with wasStructured = false there. -/
theorem c1_fence_strip_image_flow_amended :
    (∀ s : String, stripFences ("```json\n" ++ s ++ "\n```") =
        String.mk (pyStripL s.data)) ∧
      (∀ s : String, stripFences ("```\n" ++ s ++ "\n```") =
        String.mk (pyStripL s.data)) ∧
      normalizeRaw (some "```json\n\x7b\"holes\": 4\x7d\n```") =
        (JValue.obj [("holes", JValue.num 4)], true) ∧
      normalizeRawPdf (some "```json\n\x7b\"holes\": 4\x7d\n```") =
        (JValue.str "```json\n\x7b\"holes\": 4\x7d\n```", false) := by
  refine ⟨?_, ?_, rfl, rfl⟩
  · intro s
    unfold stripFences
    have hdata : ("```json\n" ++ s ++ "\n```").data = jsonFenceWrapL s.data := by
      rw [String.data_append, String.data_append]
      have h1 : ("```json\n").data = fenceJsonMark ++ ['\n'] := rfl
      have h2 : ("\n```").data = '\n' :: fenceMark := rfl
      rw [h1, h2]
      simp [jsonFenceWrapL, List.append_assoc]
    rw [hdata, stripFencesL_jsonFenceWrap]
  · intro s
    unfold stripFences
    have hdata : ("```\n" ++ s ++ "\n```").data = bareFenceWrapL s.data := by
      rw [String.data_append, String.data_append]
      have h1 : ("```\n").data = fenceMark ++ ['\n'] := rfl
      have h2 : ("\n```").data = '\n' :: fenceMark := rfl
      rw [h1, h2]
      simp [bareFenceWrapL, List.append_assoc]
    rw [hdata, stripFencesL_bareFenceWrap]
